import Mathlib

/-!
Shallow embedding of `rapair_docx.py`, a DOCX repair pipeline.

The filesystem is modelled as an association list from path strings to file
contents: the extracted scratch tree maps relative part paths to part text,
and the surrounding disk maps paths to `FileData` (raw bytes or a zip of a
scratch tree).  External collaborators (lxml's recovering parser, python-docx
validation, pypandoc conversion) are oracles carried in an `Env` record; the
pipeline `repairDocx` mirrors the control flow of the Python source,
including its try/except structure: an exception escaping a stage is modelled
by the corresponding `Env` failure flag and routes to the outer handler.
-/

set_option autoImplicit false

namespace DocxRepair

/-- Lookup of the first entry with the given key in an association list,
modelling a file read. -/
def getEntry {α : Type} : List (String × α) → String → Option α
  | [], _ => none
  | e :: xs, p => if e.1 = p then some e.2 else getEntry xs p

/-- Overwrite the first entry with the given key, or append a fresh entry,
modelling a file write. -/
def setEntry {α : Type} : List (String × α) → String → α → List (String × α)
  | [], p, v => [(p, v)]
  | e :: xs, p, v => if e.1 = p then (p, v) :: xs else e :: setEntry xs p v

/-- Remove every entry with the given key, modelling `Path.unlink`. -/
def delEntry {α : Type} : List (String × α) → String → List (String × α)
  | [], _ => []
  | e :: xs, p => if e.1 = p then delEntry xs p else e :: delEntry xs p

/-- An extracted scratch tree: relative part path to part text. -/
abbrev Scratch := List (String × String)

/-- Contents of a file on the surrounding disk: raw bytes, or a zip archive
rebuilt from a scratch tree (`rezip_from_temp` writes every scratch entry). -/
inductive FileData where
  | bytes (s : String)
  | zipOf (entries : Scratch)
deriving DecidableEq

/-- The disk outside the scratch tree: path to file contents. -/
abbrev Disk := List (String × FileData)

/-- One XML element as far as the repair code inspects it: a (namespace
qualified) tag and its text. -/
structure XElem where
  tag : String
  text : Option String
deriving DecidableEq

/-- The element list of a parsed XML document, as manipulated by
`fix_core_properties` (find by tag, insert at index 0). -/
structure XDoc where
  children : List XElem
deriving DecidableEq

/-- The repair report of `RepairReport`: final fields plus the append-only
action and error logs (timestamps dropped, messages kept). -/
structure Report where
  input_path : String
  backup_path : Option String
  actions : List String
  errors : List String
  final_docx : Option String
  final_docx_ok : Option Bool
deriving DecidableEq

/-- `RepairReport.__init__`. -/
def Report.init (inp : String) : Report :=
  { input_path := inp, backup_path := none, actions := [], errors := [],
    final_docx := none, final_docx_ok := none }

/-- `RepairReport.add_action`. -/
def Report.addAction (r : Report) (m : String) : Report :=
  { r with actions := r.actions ++ [m] }

/-- `RepairReport.add_error`. -/
def Report.addError (r : Report) (m : String) : Report :=
  { r with errors := r.errors ++ [m] }

/-- `report.set("backup_path", ...)`. -/
def Report.setBackup (r : Report) (p : String) : Report :=
  { r with backup_path := some p }

/-- `report.set("final_docx", ...)`. -/
def Report.setFinal (r : Report) (p : String) : Report :=
  { r with final_docx := some p }

/-- `report.set("final_docx_ok", ...)`. -/
def Report.setFinalOk (r : Report) (b : Bool) : Report :=
  { r with final_docx_ok := some b }

/-- Fold of `add_action` over a message list. -/
def Report.addActions (r : Report) : List String → Report
  | [] => r
  | m :: ms => (r.addAction m).addActions ms

/-- The environment of external collaborators and effect outcomes:
library availability flags, lxml's recovering parser and serializer,
zip extraction, python-docx validation, pandoc conversion, and whether
the raising filesystem operations succeed. -/
structure Env where
  lxml : Bool
  pydocx : Bool
  pypandoc : Bool
  pandocVer : Bool
  parse : String → Option XDoc
  render : XDoc → String
  extract : FileData → Option Scratch
  validate : FileData → Bool
  convMd : FileData → Option FileData
  convDocx : FileData → Option (Option FileData)
  rezipOk : Bool
  rmtreeOk : Bool

/-- `safe_parse_xml`: parse with lxml's recovering parser and return the
pretty-printed serialization, or record an error on failure (lxml missing,
or a parse that raises even in recovery mode). -/
def safeParseXml (env : Env) (content : String) (r : Report) : Option String × Report :=
  if env.lxml then
    match env.parse content with
    | some t => (some (env.render t), r)
    | none => (none, r.addError "XML parse error")
  else (none, r.addError "lxml not installed; cannot parse XML safely.")

/-- The parse-and-pretty-print result of `safe_parse_xml`, without the
report threading. -/
def parsePretty (env : Env) (content : String) : Option String :=
  if env.lxml then (env.parse content).map env.render else none

/-- Relative path of the core-properties metadata part. -/
def corePath : String := "docProps/core.xml"

/-- Clark notation tag searched by `root.find` for the title field. -/
def titleTag : String := "\x7bhttp://purl.org/dc/elements/1.1/\x7dtitle"

/-- Clark notation tag searched by `root.find` for the creator field. -/
def creatorTag : String := "\x7bhttp://purl.org/dc/elements/1.1/\x7dcreator"

/-- The minimal replacement `core.xml` template written when the existing
part fails to parse. -/
def minimalCoreXml (ts : String) : String :=
  "<?xml version=\"1.0\" encoding=\"UTF-8\" standalone=\"yes\"?>\n" ++
  "<cp:coreProperties xmlns:cp=\"http://schemas.openxmlformats.org/package/2006/metadata/core-properties\"\n" ++
  " xmlns:dc=\"http://purl.org/dc/elements/1.1/\"\n" ++
  " xmlns:dcterms=\"http://purl.org/dc/terms/\"\n" ++
  " xmlns:xsi=\"http://www.w3.org/2001/XMLSchema-instance\">\n" ++
  "  <dc:title>Repaired Document</dc:title>\n" ++
  "  <dc:creator>AutoRepair</dc:creator>\n" ++
  "  <cp:lastModifiedBy>AutoRepair</cp:lastModifiedBy>\n" ++
  "  <dcterms:created xsi:type=\"dcterms:W3CDTF\">" ++ ts ++ "Z</dcterms:created>\n" ++
  "  <dcterms:modified xsi:type=\"dcterms:W3CDTF\">" ++ ts ++ "Z</dcterms:modified>\n" ++
  "</cp:coreProperties>"

/-- `root.find('.//...title')` and likewise for creator: the first element
with the given tag, in document order. -/
def findTag (d : XDoc) (tag : String) : Option XElem :=
  d.children.find? (fun e => e.tag = tag)

/-- Python's `str.strip()`: leading and trailing whitespace removed. -/
def pyStrip (s : String) : String :=
  String.mk ((s.data.dropWhile Char.isWhitespace).reverse.dropWhile Char.isWhitespace).reverse

/-- `(title.text or "").strip() == ""`: the element's text is missing, empty
or whitespace only. -/
def blankText (e : XElem) : Bool :=
  pyStrip (e.text.getD "") = ""

/-- The title condition of `fix_core_properties`:
`title is None or (title.text or "").strip() == ""`. -/
def needsTitle : Option XElem → Bool
  | none => true
  | some e => blankText e

/-- The tag-insertion block of `fix_core_properties` on a successfully
parsed tree: both `find` calls happen first, then a default title is
prepended when the title is missing or blank, then a default creator is
prepended when the creator element is missing (its text is not examined).
Returns the new tree and the logged action messages in order. -/
def ensureBasicTags (root : XDoc) : XDoc × List String :=
  let title := findTag root titleTag
  let creator := findTag root creatorTag
  let st1 : XDoc × List String :=
    if needsTitle title then
      (⟨XElem.mk titleTag (some "Repaired Document") :: root.children⟩,
        ["Inserted missing title tag in core.xml"])
    else (root, [])
  if creator.isNone then
    (⟨XElem.mk creatorTag (some "AutoRepair") :: st1.1.children⟩,
      st1.2 ++ ["Inserted missing creator tag in core.xml"])
  else st1

/-- `fix_core_properties`: absent part is a logged no-op; an unparsable part
is replaced by the minimal template; a parsable part is re-parsed from its
pretty print, has its basic tags ensured, and is re-serialized in place. -/
def fixCoreProperties (env : Env) (ts : String) (sc : Scratch) (r : Report) :
    Scratch × Report :=
  match getEntry sc corePath with
  | none => (sc, r.addAction "No core.xml found - nothing to fix for metadata.")
  | some _content =>
    let pr := safeParseXml env _content r
    match pr.1 with
    | none =>
      (setEntry sc corePath (minimalCoreXml ts),
        ((pr.2.addAction "Attempting to rewrite core.xml with safer template.").addAction
          "Wrote minimal core.xml"))
    | some pretty =>
      match env.parse pretty with
      | none => (sc, pr.2.addError "Failed to rewrite core.xml properly")
      | some root =>
        let fixedResult := ensureBasicTags root
        (setEntry sc corePath (env.render fixedResult.1),
          (pr.2.addActions fixedResult.2).addAction
            "Rewrote core.xml with ensured basic metadata")

/-- The allow-list passed to `sanitize_xml_files` by `repair_docx`. -/
def sanitizeTargets : List String :=
  ["word/document.xml", "word/styles.xml", "word/_rels/document.xml.rels"]

/-- `sanitize_xml_files`: for each target part present in the scratch tree,
parse-and-pretty-print it and overwrite it in place; a part that fails to
parse is left untouched and only logged. -/
def sanitizeXmlFiles (env : Env) : Scratch → Report → List String → Scratch × Report
  | sc, r, [] => (sc, r)
  | sc, r, rel :: rest =>
    match getEntry sc rel with
    | none => sanitizeXmlFiles env sc (r.addAction (rel ++ " not present; skipping.")) rest
    | some content =>
      let pr := safeParseXml env content r
      match pr.1 with
      | some pretty =>
        sanitizeXmlFiles env (setEntry sc rel pretty)
          (pr.2.addAction ("Sanitized XML for " ++ rel)) rest
      | none =>
        sanitizeXmlFiles env sc
          (pr.2.addAction ("Could not fully parse " ++ rel ++ "; leaving for pandoc fallback."))
          rest

/-- Boolean string-prefix test on the underlying character lists. -/
def strHasPrefix (pre s : String) : Bool :=
  pre.data.isPrefixOf s.data

/-- Rename of one scratch key performed by `shutil.move(customXml,
customXml.removed)`: the directory prefix is replaced. -/
def renamedCustomKey (k : String) : String :=
  "customXml.removed/" ++ String.mk (k.data.drop 10)

/-- The scratch tree after `shutil.move(customXml, customXml.removed)`. -/
def moveCustomXmlSc (sc : Scratch) : Scratch :=
  sc.map (fun e => if strHasPrefix "customXml/" e.1 then (renamedCustomKey e.1, e.2) else e)

/-- `remove_custom_xml`: relocate the `customXml/` subtree (if present) to
`customXml.removed/` so it is excluded from the rebuilt package. -/
def removeCustomXml (sc : Scratch) (r : Report) : Scratch × Report :=
  if sc.any (fun e => strHasPrefix "customXml/" e.1) then
    (moveCustomXmlSc sc,
      r.addAction "Moved customXml to customXml.removed (some Word versions choke on custom XML).")
  else (sc, r)

/-- The three in-tree repair stages run by `repair_docx` between extraction
and rebuild: metadata repair, XML sanitization, structural clean. -/
def stagesScratch (env : Env) (ts : String) (sc0 : Scratch) (r : Report) :
    Scratch × Report :=
  let a := fixCoreProperties env ts sc0 r
  let b := sanitizeXmlFiles env a.1 a.2 sanitizeTargets
  removeCustomXml b.1 b.2

/-- `try_open_with_python_docx`: load the file at the given path with
python-docx; any failure (library missing, load raising) is an error. -/
def tryOpenWithPythonDocx (env : Env) (disk : Disk) (p : String) (r : Report) :
    Bool × Report :=
  if env.pydocx then
    match getEntry disk p with
    | some d =>
      if env.validate d then
        (true, r.addAction "python-docx successfully opened the file (basic validation OK).")
      else (false, r.addError "python-docx failed to open file")
    | none => (false, r.addError "python-docx failed to open file")
  else (false, r.addError "python-docx not installed; cannot validate with Document().")

/-- `Path.stem`: the name with the segment after its last dot removed
(the whole name when it has no dot). -/
def stemOf (p : String) : String :=
  match p.data.reverse.dropWhile (fun c => c != '.') with
  | [] => p
  | _ :: rest => String.mk rest.reverse

/-- `pandoc_roundtrip`: when pandoc is usable, rezip the scratch tree to a
throwaway package, convert it to markdown and back to docx, and on success
copy the rebuilt docx over the repaired output path; the throwaway package
and the markdown file are unlinked on every exit path. -/
def pandocRoundtrip (env : Env) (sc : Scratch) (out : String) (disk : Disk) (r : Report) :
    Bool × Disk × Report :=
  if env.pypandoc = false then
    (false, disk, r.addAction "pypandoc not installed; pandoc fallback disabled.")
  else if env.pandocVer = false then
    (false, disk, r.addError "pandoc not available")
  else
    let r1 := r.addAction "pandoc found via pypandoc."
    let tmpRezip := stemOf out ++ ".pandoc_temp.docx"
    let disk1 := setEntry disk tmpRezip (FileData.zipOf sc)
    let md := stemOf out ++ ".pandoc_temp.md"
    let r2 := (r1.addAction ("Rebuilt docx as " ++ tmpRezip)).addAction
      "Running pandoc docx -> md"
    match env.convMd (FileData.zipOf sc) with
    | none =>
      (false, delEntry (delEntry disk1 tmpRezip) md, r2.addError "Pandoc roundtrip failed")
    | some mdData =>
      let disk2 := setEntry disk1 md mdData
      let r3 := (r2.addAction ("Pandoc conversion to markdown saved at " ++ md)).addAction
        "Running pandoc md -> docx to rebuild structure"
      let newDocx := stemOf out ++ ".pandoc_rebuilt.docx"
      match env.convDocx mdData with
      | none =>
        (false, delEntry (delEntry disk2 tmpRezip) md, r3.addError "Pandoc roundtrip failed")
      | some none =>
        (false, delEntry (delEntry disk2 tmpRezip) md, r3)
      | some (some d) =>
        (true,
          delEntry (delEntry (setEntry (setEntry disk2 newDocx d) out d) tmpRezip) md,
          r3.addAction ("Pandoc rebuilt document replaced repaired docx: " ++ out))

/-- The final result of one run: the in-memory report, the disk, the
snapshots persisted by `report.save`, and whether the scratch tree was
removed. -/
structure RunResult where
  report : Report
  disk : Disk
  saved : List Report
  scratchRemoved : Bool
deriving DecidableEq

/-- Output path: caller-supplied, or the input stem suffixed `.repaired.docx`. -/
def outPathOf (inputPath : String) : Option String → String
  | some o => o
  | none => stemOf inputPath ++ ".repaired.docx"

/-- Backup path: input path plus `.backup.` and a UTC timestamp. -/
def backupPathOf (inputPath ts : String) : String :=
  inputPath ++ ".backup." ++ ts

/-- Report path: the input path with its suffix replaced by
`.repair_report.json`. -/
def reportPathOf (inputPath : String) : String :=
  stemOf inputPath ++ ".repair_report.json"

/-- The validate-then-maybe-fallback step of `repair_docx`: python-docx
validation of the rebuilt package, and the pandoc roundtrip when it fails.
Returns the validation flag `ok` (used later for `final_docx_ok`), the disk
and the report. -/
def validateAndFallback (env : Env) (sc3 : Scratch) (out : String) (disk2 : Disk)
    (rE : Report) : Bool × Disk × Report :=
  let vr := tryOpenWithPythonDocx env disk2 out rE
  if vr.1 then
    (vr.1, disk2, vr.2.addAction "Repaired document validated successfully with python-docx.")
  else
    let pr := pandocRoundtrip env sc3 out disk2
      (vr.2.addAction "python-docx validation failed - attempting pandoc roundtrip fallback.")
    if pr.1 then (vr.1, pr.2.1, pr.2.2.addAction "Pandoc fallback succeeded.")
    else (vr.1, pr.2.1, pr.2.2.addError "Pandoc fallback also failed. Final docx may still be corrupt.")

/-- The tail of `repair_docx`: set the final report fields, save the report
(one persisted snapshot), and best-effort removal of the scratch tree. -/
def saveAndCleanup (env : Env) (inputPath out : String) (ok : Bool) (disk3 : Disk)
    (rG : Report) : RunResult :=
  let snapshot := (rG.setFinal out).setFinalOk ok
  let rJ := snapshot.addAction ("Saved repair report to " ++ reportPathOf inputPath)
  if env.rmtreeOk then
    { report := rJ.addAction "Removed temp dir", disk := disk3,
      saved := [snapshot], scratchRemoved := true }
  else
    { report := rJ.addError "Failed to remove temp dir", disk := disk3,
      saved := [snapshot], scratchRemoved := false }

/-- The part of `repair_docx` after a successful extraction: in-tree stages,
rebuild, validation, conditional pandoc fallback, report save, scratch
cleanup.  A failing rebuild write raises to the outer handler, which records
the error and ends the run without the remaining stages. -/
def afterExtract (env : Env) (ts : String) (disk : Disk) (inputPath : String)
    (outputPath : Option String) (sc0 : Scratch) (r : Report) : RunResult :=
  let st := stagesScratch env ts sc0 r
  let out := outPathOf inputPath outputPath
  if env.rezipOk then
    let disk2 := setEntry disk out (FileData.zipOf st.1)
    let rE := ((st.2.addAction ("Rebuilt docx as " ++ out)).addAction
      "Attempting to validate repaired docx with python-docx.")
    let vfb := validateAndFallback env st.1 out disk2 rE
    saveAndCleanup env inputPath out vfb.1 vfb.2.1 vfb.2.2
  else
    { report := (stagesScratch env ts sc0 r).2.addError "Unexpected error during repair",
      disk := disk, saved := [], scratchRemoved := false }

/-- `repair_docx`: existence check, backup, extraction (fatal on failure,
re-raised into the outer handler), then the post-extraction pipeline. -/
def repairDocx (env : Env) (ts : String) (disk0 : Disk) (inputPath : String)
    (outputPath : Option String) : RunResult :=
  let r0 := Report.init inputPath
  match getEntry disk0 inputPath with
  | none =>
    { report := r0.addError ("Input file not found: " ++ inputPath),
      disk := disk0, saved := [], scratchRemoved := false }
  | some idata =>
    let bak := backupPathOf inputPath ts
    let disk1 := setEntry disk0 bak idata
    let r1 := (((r0.setBackup bak).addAction ("Backed up original file to " ++ bak)).addAction
      "Created temp dir")
    match env.extract idata with
    | none =>
      { report := (r1.addError ("Failed to unzip " ++ inputPath)).addError
          "Unexpected error during repair",
        disk := disk1, saved := [], scratchRemoved := false }
    | some sc0 =>
      afterExtract env ts disk1 inputPath outputPath sc0
        (r1.addAction "Extracted docx zip to temp dir")

/-- `r'` extends `r`: both logs of `r'` are append-extensions of those of
`r` (the logs are append-only). -/
def ReportExtends (r' r : Report) : Prop :=
  (∃ a, r'.actions = r.actions ++ a) ∧ (∃ e, r'.errors = r.errors ++ e)

/-- The scratch tree produced by the three in-tree stages; it does not
depend on the incoming report. -/
def finalScratch (env : Env) (ts : String) (sc0 : Scratch) : Scratch :=
  (stagesScratch env ts sc0 (Report.init "")).1

/-- The report right before validation, after rebuild succeeded. -/
def preValidateReport (env : Env) (ts : String) (sc0 : Scratch) (r : Report)
    (out : String) : Report :=
  (((stagesScratch env ts sc0 r).2.addAction ("Rebuilt docx as " ++ out)).addAction
    "Attempting to validate repaired docx with python-docx.")

/-- The report threaded into `afterExtract` by `repairDocx` after a
successful extraction. -/
def postExtractReport (inputPath ts : String) : Report :=
  (((((Report.init inputPath).setBackup (backupPathOf inputPath ts)).addAction
      ("Backed up original file to " ++ backupPathOf inputPath ts)).addAction
    "Created temp dir").addAction "Extracted docx zip to temp dir")


/-- The core part of the zip at path `out`: `some (getEntry es corePath)`
when the file there is a zip with entries `es`, `none` otherwise. -/
def coreInOutput (d : Disk) (out : String) : Option (Option String) :=
  match getEntry d out with
  | some (FileData.zipOf es) => some (getEntry es corePath)
  | _ => none

/-- Zip-extraction oracle for the concrete environments: a zip archive
extracts to its entries, raw bytes fail to open. -/
def zipExtract : FileData → Option Scratch
  | FileData.zipOf es => some es
  | FileData.bytes _ => none

/-- A concrete environment: python-docx present and succeeding, lxml and
pandoc absent, all filesystem operations succeeding. -/
def baseEnv : Env where
  lxml := false
  pydocx := true
  pypandoc := false
  pandocVer := false
  parse := fun _ => none
  render := fun _ => ""
  extract := zipExtract
  validate := fun _ => true
  convMd := fun _ => none
  convDocx := fun _ => none
  rezipOk := true
  rmtreeOk := true

/-- A concrete scratch tree with a document part and no core.xml. -/
def docScratch : Scratch := [("word/document.xml", "doc")]

/-- A concrete disk holding one zip-packaged input. -/
def inDisk : Disk := [("in.docx", FileData.zipOf docScratch)]

/-- `baseEnv` with a failing rebuild write. -/
def noRezipEnv : Env := { baseEnv with rezipOk := false }

/-- `baseEnv` with inputs that cannot be opened as a zip. -/
def badZipEnv : Env := { baseEnv with extract := fun _ => none }

/-- A disk holding a non-zip input file. -/
def badDisk : Disk := [("bad.docx", FileData.bytes "junk")]

/-- `baseEnv` with failing validation (pandoc still unavailable). -/
def invalidEnv : Env := { baseEnv with validate := fun _ => false }

/-- `baseEnv` with failing validation and a fully working pandoc. -/
def pandocEnv : Env :=
  { baseEnv with
    validate := fun _ => false
    pypandoc := true
    pandocVer := true
    convMd := fun _ => some (FileData.bytes "md")
    convDocx := fun _ => some (some (FileData.bytes "rebuilt")) }

/-- A core-properties tree whose creator element is present but empty and
whose title is present and non-blank. -/
def emptyCreatorTree : XDoc :=
  ⟨[XElem.mk creatorTag (some ""), XElem.mk titleTag (some "T")]⟩

/-- An environment whose parser returns `emptyCreatorTree` for the stored
core part and for its pretty print. -/
def emptyCreatorEnv : Env :=
  { baseEnv with
    lxml := true
    parse := fun s => if s = "core" ∨ s = "P" then some emptyCreatorTree else none
    render := fun _ => "P" }

/-- An environment whose parser returns the empty tree for the stored core
part and for its pretty print. -/
def bareCoreEnv : Env :=
  { baseEnv with
    lxml := true
    parse := fun s => if s = "core" ∨ s = "P" then some (XDoc.mk []) else none
    render := fun _ => "P" }

/-- A scratch tree holding just a core part with raw content "core". -/
def coreScratch : Scratch := [("docProps/core.xml", "core")]

/-- A scratch tree with an unparsable document part and a media file. -/
def sanScratch : Scratch := [("word/document.xml", "notxml"), ("word/media/img.png", "IMG")]

/-! Theorems. -/

@[simp] theorem getEntry_nil {α : Type} (p : String) :
    getEntry ([] : List (String × α)) p = none := rfl

theorem getEntry_setEntry_self {α : Type} (xs : List (String × α)) (p : String) (v : α) :
    getEntry (setEntry xs p v) p = some v := by
  induction xs with
  | nil => simp [setEntry, getEntry]
  | cons e xs ih =>
    simp only [setEntry]
    by_cases h : e.1 = p
    · rw [if_pos h]; simp [getEntry]
    · rw [if_neg h]; simp only [getEntry, if_neg h]; exact ih

theorem getEntry_setEntry_ne {α : Type} (xs : List (String × α)) (p q : String) (v : α)
    (h : q ≠ p) : getEntry (setEntry xs p v) q = getEntry xs q := by
  induction xs with
  | nil =>
    simp only [setEntry, getEntry]
    rw [if_neg (fun hq : p = q => h hq.symm)]
  | cons e xs ih =>
    simp only [setEntry]
    by_cases he : e.1 = p
    · rw [if_pos he]
      simp only [getEntry]
      rw [if_neg (fun hpq : p = q => h hpq.symm),
        if_neg (fun heq : e.1 = q => h (heq.symm.trans he))]
    · rw [if_neg he]
      simp only [getEntry]
      by_cases hq : e.1 = q
      · rw [if_pos hq, if_pos hq]
      · rw [if_neg hq, if_neg hq]; exact ih

theorem getEntry_delEntry_self {α : Type} (xs : List (String × α)) (p : String) :
    getEntry (delEntry xs p) p = none := by
  induction xs with
  | nil => simp [delEntry, getEntry]
  | cons e xs ih =>
    simp only [delEntry]
    by_cases h : e.1 = p
    · rw [if_pos h]; exact ih
    · rw [if_neg h]; simp only [getEntry, if_neg h]; exact ih

theorem getEntry_delEntry_ne {α : Type} (xs : List (String × α)) (p q : String)
    (h : q ≠ p) : getEntry (delEntry xs p) q = getEntry xs q := by
  induction xs with
  | nil => rfl
  | cons e xs ih =>
    simp only [delEntry]
    by_cases he : e.1 = p
    · rw [if_pos he, ih]
      simp only [getEntry]
      rw [if_neg (fun heq : e.1 = q => h (heq.symm.trans he))]
    · rw [if_neg he]
      simp only [getEntry]
      by_cases hq : e.1 = q
      · rw [if_pos hq, if_pos hq]
      · rw [if_neg hq, if_neg hq]; exact ih

@[simp] theorem addAction_actions (r : Report) (m : String) :
    (r.addAction m).actions = r.actions ++ [m] := rfl
@[simp] theorem addAction_errors (r : Report) (m : String) :
    (r.addAction m).errors = r.errors := rfl
@[simp] theorem addAction_final_ok (r : Report) (m : String) :
    (r.addAction m).final_docx_ok = r.final_docx_ok := rfl
@[simp] theorem addAction_backup (r : Report) (m : String) :
    (r.addAction m).backup_path = r.backup_path := rfl
@[simp] theorem addError_actions (r : Report) (m : String) :
    (r.addError m).actions = r.actions := rfl
@[simp] theorem addError_errors (r : Report) (m : String) :
    (r.addError m).errors = r.errors ++ [m] := rfl
@[simp] theorem addError_final_ok (r : Report) (m : String) :
    (r.addError m).final_docx_ok = r.final_docx_ok := rfl
@[simp] theorem addError_backup (r : Report) (m : String) :
    (r.addError m).backup_path = r.backup_path := rfl
@[simp] theorem setBackup_backup (r : Report) (p : String) :
    (r.setBackup p).backup_path = some p := rfl
@[simp] theorem setBackup_actions (r : Report) (p : String) :
    (r.setBackup p).actions = r.actions := rfl
@[simp] theorem setBackup_errors (r : Report) (p : String) :
    (r.setBackup p).errors = r.errors := rfl
@[simp] theorem setFinal_actions (r : Report) (p : String) :
    (r.setFinal p).actions = r.actions := rfl
@[simp] theorem setFinal_errors (r : Report) (p : String) :
    (r.setFinal p).errors = r.errors := rfl
@[simp] theorem setFinal_final_ok (r : Report) (p : String) :
    (r.setFinal p).final_docx_ok = r.final_docx_ok := rfl
@[simp] theorem setFinalOk_final_ok (r : Report) (b : Bool) :
    (r.setFinalOk b).final_docx_ok = some b := rfl
@[simp] theorem setFinalOk_actions (r : Report) (b : Bool) :
    (r.setFinalOk b).actions = r.actions := rfl
@[simp] theorem setFinalOk_errors (r : Report) (b : Bool) :
    (r.setFinalOk b).errors = r.errors := rfl
@[simp] theorem init_actions (inp : String) : (Report.init inp).actions = [] := rfl
@[simp] theorem init_errors (inp : String) : (Report.init inp).errors = [] := rfl

theorem safeParseXml_fst (env : Env) (content : String) (r : Report) :
    (safeParseXml env content r).1 = parsePretty env content := by
  unfold safeParseXml parsePretty
  by_cases hl : env.lxml
  · simp only [if_pos hl]
    cases env.parse content <;> rfl
  · simp only [if_neg hl]

theorem reportExtends_refl (r : Report) : ReportExtends r r :=
  ⟨⟨[], by simp⟩, ⟨[], by simp⟩⟩

theorem reportExtends_trans {r1 r2 r3 : Report}
    (h12 : ReportExtends r2 r1) (h23 : ReportExtends r3 r2) : ReportExtends r3 r1 := by
  obtain ⟨⟨a1, ha1⟩, ⟨e1, he1⟩⟩ := h12
  obtain ⟨⟨a2, ha2⟩, ⟨e2, he2⟩⟩ := h23
  exact ⟨⟨a1 ++ a2, by rw [ha2, ha1, List.append_assoc]⟩,
    ⟨e1 ++ e2, by rw [he2, he1, List.append_assoc]⟩⟩

theorem reportExtends_addAction (r : Report) (m : String) :
    ReportExtends (r.addAction m) r :=
  ⟨⟨[m], rfl⟩, ⟨[], by simp⟩⟩

theorem reportExtends_addError (r : Report) (m : String) :
    ReportExtends (r.addError m) r :=
  ⟨⟨[], by simp⟩, ⟨[m], rfl⟩⟩

theorem reportExtends_addActions (ms : List String) : ∀ (r : Report),
    ReportExtends (r.addActions ms) r := by
  induction ms with
  | nil => intro r; exact reportExtends_refl r
  | cons m ms ih =>
    intro r
    exact reportExtends_trans (reportExtends_addAction r m) (ih (r.addAction m))

theorem reportExtends_setFinal (r : Report) (p : String) :
    ReportExtends (r.setFinal p) r :=
  ⟨⟨[], by simp⟩, ⟨[], by simp⟩⟩

theorem reportExtends_setFinalOk (r : Report) (b : Bool) :
    ReportExtends (r.setFinalOk b) r :=
  ⟨⟨[], by simp⟩, ⟨[], by simp⟩⟩

theorem mem_actions_of_reportExtends {r' r : Report} {m : String}
    (h : ReportExtends r' r) (hm : m ∈ r.actions) : m ∈ r'.actions := by
  obtain ⟨⟨a, ha⟩, _⟩ := h
  rw [ha]
  exact List.mem_append_left _ hm

theorem mem_errors_of_reportExtends {r' r : Report} {m : String}
    (h : ReportExtends r' r) (hm : m ∈ r.errors) : m ∈ r'.errors := by
  obtain ⟨_, ⟨e, he⟩⟩ := h
  rw [he]
  exact List.mem_append_left _ hm

theorem safeParseXml_extends (env : Env) (c : String) (r : Report) :
    ReportExtends (safeParseXml env c r).2 r := by
  unfold safeParseXml
  by_cases hl : env.lxml
  · simp only [if_pos hl]
    cases env.parse c
    · exact reportExtends_addError r _
    · exact reportExtends_refl r
  · simp only [if_neg hl]
    exact reportExtends_addError r _

theorem fixCoreProperties_extends (env : Env) (ts : String) (sc : Scratch) (r : Report) :
    ReportExtends (fixCoreProperties env ts sc r).2 r := by
  unfold fixCoreProperties
  cases getEntry sc corePath with
  | none => exact reportExtends_addAction r _
  | some content =>
    dsimp only
    cases (safeParseXml env content r).1 with
    | none =>
      dsimp only
      exact reportExtends_trans (safeParseXml_extends env content r)
        (reportExtends_trans (reportExtends_addAction _ _) (reportExtends_addAction _ _))
    | some pretty =>
      dsimp only
      cases env.parse pretty with
      | none =>
        dsimp only
        exact reportExtends_trans (safeParseXml_extends env content r)
          (reportExtends_addError _ _)
      | some root =>
        dsimp only
        exact reportExtends_trans (safeParseXml_extends env content r)
          (reportExtends_trans (reportExtends_addActions _ _) (reportExtends_addAction _ _))

theorem sanitizeXmlFiles_extends (env : Env) : ∀ (targets : List String) (sc : Scratch)
    (r : Report), ReportExtends (sanitizeXmlFiles env sc r targets).2 r := by
  intro targets
  induction targets with
  | nil => intro sc r; exact reportExtends_refl r
  | cons rel rest ih =>
    intro sc r
    simp only [sanitizeXmlFiles]
    cases getEntry sc rel with
    | none =>
      exact reportExtends_trans (reportExtends_addAction r _) (ih _ _)
    | some content =>
      simp only []
      cases (safeParseXml env content r).1 with
      | some pretty =>
        exact reportExtends_trans
          (reportExtends_trans (safeParseXml_extends env content r)
            (reportExtends_addAction _ _)) (ih _ _)
      | none =>
        exact reportExtends_trans
          (reportExtends_trans (safeParseXml_extends env content r)
            (reportExtends_addAction _ _)) (ih _ _)

theorem removeCustomXml_extends (sc : Scratch) (r : Report) :
    ReportExtends (removeCustomXml sc r).2 r := by
  unfold removeCustomXml
  split
  · exact reportExtends_addAction r _
  · exact reportExtends_refl r

theorem stagesScratch_extends (env : Env) (ts : String) (sc0 : Scratch) (r : Report) :
    ReportExtends (stagesScratch env ts sc0 r).2 r := by
  unfold stagesScratch
  exact reportExtends_trans
    (reportExtends_trans (fixCoreProperties_extends env ts sc0 r)
      (sanitizeXmlFiles_extends env sanitizeTargets _ _))
    (removeCustomXml_extends _ _)

theorem tryOpenWithPythonDocx_extends (env : Env) (disk : Disk) (p : String) (r : Report) :
    ReportExtends (tryOpenWithPythonDocx env disk p r).2 r := by
  unfold tryOpenWithPythonDocx
  by_cases hp : env.pydocx
  · simp only [if_pos hp]
    cases getEntry disk p with
    | none => exact reportExtends_addError r _
    | some d =>
      simp only []
      by_cases hv : env.validate d
      · simp only [if_pos hv]; exact reportExtends_addAction r _
      · simp only [if_neg hv]; exact reportExtends_addError r _
  · simp only [if_neg hp]; exact reportExtends_addError r _

theorem pandocRoundtrip_extends (env : Env) (sc : Scratch) (out : String) (disk : Disk)
    (r : Report) : ReportExtends (pandocRoundtrip env sc out disk r).2.2 r := by
  unfold pandocRoundtrip
  by_cases h1 : env.pypandoc = false
  · simp only [if_pos h1]; exact reportExtends_addAction r _
  · simp only [if_neg h1]
    by_cases h2 : env.pandocVer = false
    · simp only [if_pos h2]; exact reportExtends_addError r _
    · simp only [if_neg h2]
      cases env.convMd (FileData.zipOf sc) with
      | none =>
        dsimp only
        exact reportExtends_trans
          (reportExtends_trans (reportExtends_trans (reportExtends_addAction r _)
            (reportExtends_addAction _ _)) (reportExtends_addAction _ _))
          (reportExtends_addError _ _)
      | some mdData =>
        dsimp only
        cases env.convDocx mdData with
        | none =>
          dsimp only
          exact reportExtends_trans (reportExtends_trans (reportExtends_trans
            (reportExtends_trans (reportExtends_trans (reportExtends_addAction r _)
              (reportExtends_addAction _ _)) (reportExtends_addAction _ _))
            (reportExtends_addAction _ _)) (reportExtends_addAction _ _))
            (reportExtends_addError _ _)
        | some od =>
          cases od with
          | none =>
            dsimp only
            exact reportExtends_trans (reportExtends_trans (reportExtends_trans
              (reportExtends_trans (reportExtends_addAction r _)
                (reportExtends_addAction _ _)) (reportExtends_addAction _ _))
              (reportExtends_addAction _ _)) (reportExtends_addAction _ _)
          | some d =>
            dsimp only
            exact reportExtends_trans (reportExtends_trans (reportExtends_trans
              (reportExtends_trans (reportExtends_trans (reportExtends_addAction r _)
                (reportExtends_addAction _ _)) (reportExtends_addAction _ _))
              (reportExtends_addAction _ _)) (reportExtends_addAction _ _))
              (reportExtends_addAction _ _)

theorem fixCoreProperties_fst (env : Env) (ts : String) (sc : Scratch) (r r' : Report) :
    (fixCoreProperties env ts sc r).1 = (fixCoreProperties env ts sc r').1 := by
  unfold fixCoreProperties
  cases getEntry sc corePath with
  | none => rfl
  | some content =>
    dsimp only
    rw [safeParseXml_fst env content r, safeParseXml_fst env content r']
    cases parsePretty env content with
    | none => rfl
    | some pretty =>
      dsimp only
      cases env.parse pretty <;> rfl

theorem sanitizeXmlFiles_fst (env : Env) : ∀ (targets : List String) (sc : Scratch)
    (r r' : Report), (sanitizeXmlFiles env sc r targets).1 = (sanitizeXmlFiles env sc r' targets).1 := by
  intro targets
  induction targets with
  | nil => intro sc r r'; rfl
  | cons rel rest ih =>
    intro sc r r'
    simp only [sanitizeXmlFiles]
    cases getEntry sc rel with
    | none => exact ih sc _ _
    | some content =>
      dsimp only
      rw [safeParseXml_fst env content r, safeParseXml_fst env content r']
      cases parsePretty env content with
      | none => exact ih sc _ _
      | some pretty => exact ih _ _ _

theorem removeCustomXml_fst (sc : Scratch) (r r' : Report) :
    (removeCustomXml sc r).1 = (removeCustomXml sc r').1 := by
  unfold removeCustomXml
  split <;> rfl

theorem stagesScratch_fst (env : Env) (ts : String) (sc0 : Scratch) (r : Report) :
    (stagesScratch env ts sc0 r).1 = finalScratch env ts sc0 := by
  have key : ∀ r' : Report, (stagesScratch env ts sc0 r').1 =
      (removeCustomXml
        (sanitizeXmlFiles env (fixCoreProperties env ts sc0 (Report.init "")).1
          (Report.init "") sanitizeTargets).1 (Report.init "")).1 := by
    intro r'
    unfold stagesScratch
    dsimp only
    rw [removeCustomXml_fst _ _ (Report.init ""),
      sanitizeXmlFiles_fst env sanitizeTargets _ _ (Report.init ""),
      fixCoreProperties_fst env ts sc0 r' (Report.init "")]
  rw [key r]
  unfold finalScratch
  rw [key (Report.init "")]

theorem tryOpenWithPythonDocx_fst (env : Env) (disk : Disk) (p : String) (r : Report)
    (d : FileData) (h : getEntry disk p = some d) :
    (tryOpenWithPythonDocx env disk p r).1 = (env.pydocx && env.validate d) := by
  unfold tryOpenWithPythonDocx
  cases hp : env.pydocx with
  | false => simp [hp]
  | true =>
    simp only [hp, if_true, h, Bool.true_and]
    cases hv : env.validate d <;> simp [hv]

/-! String helpers. -/

theorem string_append_right_ne (s x y : String) (h : x ≠ y) : s ++ x ≠ s ++ y := by
  intro he
  apply h
  apply String.ext
  have hd : (s ++ x).data = (s ++ y).data := congrArg String.data he
  rw [String.data_append, String.data_append] at hd
  exact List.append_cancel_left hd

theorem isPrefixOf_append_self (l m : List Char) : l.isPrefixOf (l ++ m) = true := by
  induction l with
  | nil => simp [List.isPrefixOf]
  | cons c l ih => simp [List.isPrefixOf, ih]

theorem strHasPrefix_append (s t : String) : strHasPrefix s (s ++ t) = true := by
  unfold strHasPrefix
  rw [String.data_append]
  exact isPrefixOf_append_self _ _

/-! Frame lemmas for the in-tree stages. -/

theorem getEntry_moveCustomXmlSc (sc : Scratch) (p : String)
    (h1 : strHasPrefix "customXml/" p = false)
    (h2 : strHasPrefix "customXml.removed/" p = false) :
    getEntry (moveCustomXmlSc sc) p = getEntry sc p := by
  induction sc with
  | nil => rfl
  | cons e xs ih =>
    simp only [moveCustomXmlSc, List.map_cons] at ih ⊢
    by_cases hp : strHasPrefix "customXml/" e.1
    · rw [if_pos hp]
      simp only [getEntry]
      have hk : ¬ renamedCustomKey e.1 = p := by
        intro he
        rw [← he] at h2
        unfold renamedCustomKey at h2
        rw [strHasPrefix_append] at h2
        exact Bool.noConfusion h2
      have he1 : ¬ e.1 = p := by
        intro he
        rw [he, h1] at hp
        exact Bool.noConfusion hp
      rw [if_neg hk, if_neg he1]
      exact ih
    · rw [if_neg hp]
      simp only [getEntry]
      by_cases hq : e.1 = p
      · rw [if_pos hq, if_pos hq]
      · rw [if_neg hq, if_neg hq]; exact ih

theorem getEntry_removeCustomXml (sc : Scratch) (r : Report) (p : String)
    (h1 : strHasPrefix "customXml/" p = false)
    (h2 : strHasPrefix "customXml.removed/" p = false) :
    getEntry (removeCustomXml sc r).1 p = getEntry sc p := by
  unfold removeCustomXml
  split
  · exact getEntry_moveCustomXmlSc sc p h1 h2
  · rfl

theorem sanitizeXmlFiles_frame (env : Env) : ∀ (targets : List String) (sc : Scratch)
    (r : Report) (p : String), p ∉ targets →
    getEntry (sanitizeXmlFiles env sc r targets).1 p = getEntry sc p := by
  intro targets
  induction targets with
  | nil => intro sc r p _; rfl
  | cons rel rest ih =>
    intro sc r p h
    have hne : p ≠ rel := fun he => h (he ▸ List.mem_cons_self rel rest)
    have hrest : p ∉ rest := fun hm => h (List.mem_cons_of_mem _ hm)
    simp only [sanitizeXmlFiles]
    cases getEntry sc rel with
    | none => exact ih sc _ p hrest
    | some content =>
      dsimp only
      rw [safeParseXml_fst env content r]
      cases parsePretty env content with
      | none => exact ih sc _ p hrest
      | some pretty =>
        dsimp only
        rw [ih _ _ p hrest]
        exact getEntry_setEntry_ne sc rel p pretty hne

theorem sanitizeXmlFiles_untouched (env : Env) : ∀ (targets : List String) (sc : Scratch)
    (r : Report) (p c : String), getEntry sc p = some c → parsePretty env c = none →
    getEntry (sanitizeXmlFiles env sc r targets).1 p = some c := by
  intro targets
  induction targets with
  | nil => intro sc r p c hc _; exact hc
  | cons rel rest ih =>
    intro sc r p c hc hf
    simp only [sanitizeXmlFiles]
    by_cases hrel : rel = p
    · subst hrel
      rw [hc]
      dsimp only
      rw [safeParseXml_fst env c r, hf]
      exact ih sc _ rel c hc hf
    · cases hg : getEntry sc rel with
      | none => exact ih sc _ p c hc hf
      | some content =>
        dsimp only
        rw [safeParseXml_fst env content r]
        cases parsePretty env content with
        | none => exact ih sc _ p c hc hf
        | some pretty =>
          dsimp only
          refine ih _ _ p c ?_ hf
          rw [getEntry_setEntry_ne sc rel p pretty (fun he => hrel he.symm)]
          exact hc

/-! Projection lemmas for the orchestrator steps. -/

theorem validateAndFallback_fst (env : Env) (sc3 : Scratch) (out : String) (disk2 : Disk)
    (rE : Report) :
    (validateAndFallback env sc3 out disk2 rE).1 = (tryOpenWithPythonDocx env disk2 out rE).1 := by
  unfold validateAndFallback
  dsimp only
  by_cases hok : (tryOpenWithPythonDocx env disk2 out rE).1
  · rw [if_pos hok]
  · rw [if_neg hok]
    split <;> rfl

theorem validateAndFallback_extends (env : Env) (sc3 : Scratch) (out : String) (disk2 : Disk)
    (rE : Report) :
    ReportExtends (validateAndFallback env sc3 out disk2 rE).2.2 rE := by
  unfold validateAndFallback
  dsimp only
  by_cases hok : (tryOpenWithPythonDocx env disk2 out rE).1
  · rw [if_pos hok]
    exact reportExtends_trans (tryOpenWithPythonDocx_extends env disk2 out rE)
      (reportExtends_addAction _ _)
  · rw [if_neg hok]
    have base : ReportExtends (pandocRoundtrip env sc3 out disk2
        ((tryOpenWithPythonDocx env disk2 out rE).2.addAction
          "python-docx validation failed - attempting pandoc roundtrip fallback.")).2.2 rE :=
      reportExtends_trans (reportExtends_trans (tryOpenWithPythonDocx_extends env disk2 out rE)
        (reportExtends_addAction _ _)) (pandocRoundtrip_extends env sc3 out disk2 _)
    split
    · exact reportExtends_trans base (reportExtends_addAction _ _)
    · exact reportExtends_trans base (reportExtends_addError _ _)

theorem validateAndFallback_validated (env : Env) (sc3 : Scratch) (out : String) (disk2 : Disk)
    (rE : Report) (hok : (tryOpenWithPythonDocx env disk2 out rE).1 = true) :
    (validateAndFallback env sc3 out disk2 rE).2.1 = disk2 := by
  unfold validateAndFallback
  dsimp only
  rw [if_pos hok]

theorem validateAndFallback_marker (env : Env) (sc3 : Scratch) (out : String) (disk2 : Disk)
    (rE : Report) (hok : (tryOpenWithPythonDocx env disk2 out rE).1 = false) :
    "python-docx validation failed - attempting pandoc roundtrip fallback."
      ∈ (validateAndFallback env sc3 out disk2 rE).2.2.actions := by
  unfold validateAndFallback
  dsimp only
  rw [if_neg (fun hc : (tryOpenWithPythonDocx env disk2 out rE).1 = true =>
    Bool.noConfusion (hok.symm.trans hc))]
  have hbase : "python-docx validation failed - attempting pandoc roundtrip fallback."
      ∈ ((tryOpenWithPythonDocx env disk2 out rE).2.addAction
        "python-docx validation failed - attempting pandoc roundtrip fallback.").actions := by
    rw [addAction_actions]
    exact List.mem_append_right _ (List.mem_singleton.mpr rfl)
  have hpand := pandocRoundtrip_extends env sc3 out disk2
    ((tryOpenWithPythonDocx env disk2 out rE).2.addAction
      "python-docx validation failed - attempting pandoc roundtrip fallback.")
  split
  · exact mem_actions_of_reportExtends (reportExtends_addAction _ _)
      (mem_actions_of_reportExtends hpand hbase)
  · exact mem_actions_of_reportExtends (reportExtends_addError _ _)
      (mem_actions_of_reportExtends hpand hbase)

theorem saveAndCleanup_final_ok (env : Env) (inputPath out : String) (ok : Bool)
    (disk3 : Disk) (rG : Report) :
    (saveAndCleanup env inputPath out ok disk3 rG).report.final_docx_ok = some ok := by
  unfold saveAndCleanup
  dsimp only
  by_cases hm : env.rmtreeOk
  · rw [if_pos hm]; simp
  · rw [if_neg hm]; simp

theorem saveAndCleanup_disk (env : Env) (inputPath out : String) (ok : Bool)
    (disk3 : Disk) (rG : Report) :
    (saveAndCleanup env inputPath out ok disk3 rG).disk = disk3 := by
  unfold saveAndCleanup
  dsimp only
  by_cases hm : env.rmtreeOk
  · rw [if_pos hm]
  · rw [if_neg hm]

theorem saveAndCleanup_saved (env : Env) (inputPath out : String) (ok : Bool)
    (disk3 : Disk) (rG : Report) :
    (saveAndCleanup env inputPath out ok disk3 rG).saved = [(rG.setFinal out).setFinalOk ok] := by
  unfold saveAndCleanup
  dsimp only
  by_cases hm : env.rmtreeOk
  · rw [if_pos hm]
  · rw [if_neg hm]

theorem saveAndCleanup_report_extends (env : Env) (inputPath out : String) (ok : Bool)
    (disk3 : Disk) (rG : Report) :
    ReportExtends (saveAndCleanup env inputPath out ok disk3 rG).report
      ((rG.setFinal out).setFinalOk ok) := by
  unfold saveAndCleanup
  dsimp only
  by_cases hm : env.rmtreeOk
  · rw [if_pos hm]
    exact reportExtends_trans (reportExtends_addAction _ _) (reportExtends_addAction _ _)
  · rw [if_neg hm]
    exact reportExtends_trans (reportExtends_addAction _ _) (reportExtends_addError _ _)

theorem afterExtract_norezip (env : Env) (ts : String) (disk : Disk) (inputPath : String)
    (outputPath : Option String) (sc0 : Scratch) (r : Report) (h : env.rezipOk = false) :
    afterExtract env ts disk inputPath outputPath sc0 r =
      { report := (stagesScratch env ts sc0 r).2.addError "Unexpected error during repair",
        disk := disk, saved := [], scratchRemoved := false } := by
  unfold afterExtract
  rw [if_neg (fun hc : env.rezipOk = true => Bool.noConfusion (h.symm.trans hc))]

theorem afterExtract_rezip (env : Env) (ts : String) (disk : Disk) (inputPath : String)
    (outputPath : Option String) (sc0 : Scratch) (r : Report) (h : env.rezipOk = true) :
    afterExtract env ts disk inputPath outputPath sc0 r =
      (let st := stagesScratch env ts sc0 r
       let out := outPathOf inputPath outputPath
       let disk2 := setEntry disk out (FileData.zipOf st.1)
       let rE := ((st.2.addAction ("Rebuilt docx as " ++ out)).addAction
         "Attempting to validate repaired docx with python-docx.")
       let vfb := validateAndFallback env st.1 out disk2 rE
       saveAndCleanup env inputPath out vfb.1 vfb.2.1 vfb.2.2) := by
  unfold afterExtract
  rw [if_pos h]

theorem repairDocx_run (env : Env) (ts : String) (disk0 : Disk) (inputPath : String)
    (outputPath : Option String) (idata : FileData) (sc0 : Scratch)
    (h1 : getEntry disk0 inputPath = some idata)
    (h2 : env.extract idata = some sc0) :
    repairDocx env ts disk0 inputPath outputPath =
      afterExtract env ts (setEntry disk0 (backupPathOf inputPath ts) idata) inputPath
        outputPath sc0 (postExtractReport inputPath ts) := by
  unfold repairDocx
  rw [h1]
  dsimp only
  rw [h2]
  dsimp only
  rfl

theorem repairDocx_unzipFail (env : Env) (ts : String) (disk0 : Disk) (inputPath : String)
    (outputPath : Option String) (idata : FileData)
    (h1 : getEntry disk0 inputPath = some idata)
    (h2 : env.extract idata = none) :
    repairDocx env ts disk0 inputPath outputPath =
      { report := (((((Report.init inputPath).setBackup (backupPathOf inputPath ts)).addAction
            ("Backed up original file to " ++ backupPathOf inputPath ts)).addAction
          "Created temp dir").addError ("Failed to unzip " ++ inputPath)).addError
            "Unexpected error during repair",
        disk := setEntry disk0 (backupPathOf inputPath ts) idata,
        saved := [], scratchRemoved := false } := by
  unfold repairDocx
  rw [h1]
  dsimp only
  rw [h2]

theorem addActions_final_ok (ms : List String) : ∀ r : Report,
    (r.addActions ms).final_docx_ok = r.final_docx_ok := by
  induction ms with
  | nil => intro r; rfl
  | cons m ms ih =>
    intro r
    show ((r.addAction m).addActions ms).final_docx_ok = r.final_docx_ok
    rw [ih]
    simp

theorem safeParseXml_final_ok (env : Env) (c : String) (r : Report) :
    (safeParseXml env c r).2.final_docx_ok = r.final_docx_ok := by
  unfold safeParseXml
  by_cases hl : env.lxml
  · rw [if_pos hl]; cases env.parse c <;> simp
  · rw [if_neg hl]; simp

theorem fixCoreProperties_final_ok (env : Env) (ts : String) (sc : Scratch) (r : Report) :
    (fixCoreProperties env ts sc r).2.final_docx_ok = r.final_docx_ok := by
  unfold fixCoreProperties
  cases getEntry sc corePath with
  | none => simp
  | some content =>
    dsimp only
    cases (safeParseXml env content r).1 with
    | none =>
      dsimp only
      rw [addAction_final_ok, addAction_final_ok, safeParseXml_final_ok]
    | some pretty =>
      dsimp only
      cases env.parse pretty with
      | none =>
        dsimp only
        rw [addError_final_ok, safeParseXml_final_ok]
      | some root =>
        dsimp only
        rw [addAction_final_ok, addActions_final_ok, safeParseXml_final_ok]

theorem sanitizeXmlFiles_final_ok (env : Env) : ∀ (targets : List String) (sc : Scratch)
    (r : Report), (sanitizeXmlFiles env sc r targets).2.final_docx_ok = r.final_docx_ok := by
  intro targets
  induction targets with
  | nil => intro sc r; rfl
  | cons rel rest ih =>
    intro sc r
    simp only [sanitizeXmlFiles]
    cases getEntry sc rel with
    | none => rw [ih, addAction_final_ok]
    | some content =>
      dsimp only
      cases (safeParseXml env content r).1 with
      | some pretty =>
        rw [ih, addAction_final_ok, safeParseXml_final_ok]
      | none =>
        rw [ih, addAction_final_ok, safeParseXml_final_ok]

theorem removeCustomXml_final_ok (sc : Scratch) (r : Report) :
    (removeCustomXml sc r).2.final_docx_ok = r.final_docx_ok := by
  unfold removeCustomXml
  split <;> simp

theorem stagesScratch_final_ok (env : Env) (ts : String) (sc0 : Scratch) (r : Report) :
    (stagesScratch env ts sc0 r).2.final_docx_ok = r.final_docx_ok := by
  unfold stagesScratch
  dsimp only
  rw [removeCustomXml_final_ok, sanitizeXmlFiles_final_ok, fixCoreProperties_final_ok]

theorem repairDocx_noinput (env : Env) (ts : String) (disk0 : Disk) (inputPath : String)
    (outputPath : Option String) (h : getEntry disk0 inputPath = none) :
    repairDocx env ts disk0 inputPath outputPath =
      { report := (Report.init inputPath).addError ("Input file not found: " ++ inputPath),
        disk := disk0, saved := [], scratchRemoved := false } := by
  unfold repairDocx
  rw [h]

theorem pandocRoundtrip_unavailable (env : Env)
    (htool : env.pypandoc = false ∨ env.pandocVer = false) (sc : Scratch) (out : String)
    (d : Disk) (r : Report) :
    (pandocRoundtrip env sc out d r).1 = false ∧ (pandocRoundtrip env sc out d r).2.1 = d := by
  unfold pandocRoundtrip
  by_cases hp : env.pypandoc = false
  · rw [if_pos hp]; exact ⟨rfl, rfl⟩
  · have hv : env.pandocVer = false := htool.resolve_left hp
    rw [if_neg hp, if_pos hv]; exact ⟨rfl, rfl⟩

theorem pandocRoundtrip_success (env : Env) (sc : Scratch) (out : String) (disk : Disk)
    (r : Report) (m d : FileData)
    (hpy : env.pypandoc = true) (hver : env.pandocVer = true)
    (hmd : env.convMd (FileData.zipOf sc) = some m)
    (hdx : env.convDocx m = some (some d)) :
    (pandocRoundtrip env sc out disk r).1 = true ∧
    getEntry (pandocRoundtrip env sc out disk r).2.1 (stemOf out ++ ".pandoc_rebuilt.docx") = some d ∧
    getEntry (pandocRoundtrip env sc out disk r).2.1 (stemOf out ++ ".pandoc_temp.docx") = none ∧
    getEntry (pandocRoundtrip env sc out disk r).2.1 (stemOf out ++ ".pandoc_temp.md") = none := by
  unfold pandocRoundtrip
  rw [if_neg (fun hc : env.pypandoc = false => Bool.noConfusion (hpy.symm.trans hc)),
    if_neg (fun hc : env.pandocVer = false => Bool.noConfusion (hver.symm.trans hc))]
  dsimp only
  rw [hmd]
  dsimp only
  rw [hdx]
  dsimp only
  have hne1 : (stemOf out ++ ".pandoc_rebuilt.docx") ≠ (stemOf out ++ ".pandoc_temp.md") :=
    string_append_right_ne _ _ _ (by decide)
  have hne2 : (stemOf out ++ ".pandoc_rebuilt.docx") ≠ (stemOf out ++ ".pandoc_temp.docx") :=
    string_append_right_ne _ _ _ (by decide)
  have hne3 : (stemOf out ++ ".pandoc_temp.docx") ≠ (stemOf out ++ ".pandoc_temp.md") :=
    string_append_right_ne _ _ _ (by decide)
  refine ⟨rfl, ?_, ?_, ?_⟩
  · rw [getEntry_delEntry_ne _ _ _ hne1, getEntry_delEntry_ne _ _ _ hne2]
    by_cases hco : (stemOf out ++ ".pandoc_rebuilt.docx") = out
    · rw [hco, getEntry_setEntry_self]
    · rw [getEntry_setEntry_ne _ _ _ _ hco, getEntry_setEntry_self]
  · rw [getEntry_delEntry_ne _ _ _ hne3, getEntry_delEntry_self]
  · rw [getEntry_delEntry_self]

theorem validateAndFallback_disk_fb (env : Env) (sc3 : Scratch) (out : String)
    (disk2 : Disk) (rE : Report)
    (hok : (tryOpenWithPythonDocx env disk2 out rE).1 = false) :
    (validateAndFallback env sc3 out disk2 rE).2.1 =
      (pandocRoundtrip env sc3 out disk2
        ((tryOpenWithPythonDocx env disk2 out rE).2.addAction
          "python-docx validation failed - attempting pandoc roundtrip fallback.")).2.1 := by
  unfold validateAndFallback
  dsimp only
  rw [if_neg (fun hc : (tryOpenWithPythonDocx env disk2 out rE).1 = true =>
    Bool.noConfusion (hok.symm.trans hc))]
  split <;> rfl

theorem tryOpen_rebuilt_fst (env : Env) (disk : Disk) (out : String) (rE : Report)
    (sc3 : Scratch) :
    (tryOpenWithPythonDocx env (setEntry disk out (FileData.zipOf sc3)) out rE).1 =
      (env.pydocx && env.validate (FileData.zipOf sc3)) :=
  tryOpenWithPythonDocx_fst _ _ _ _ _ (getEntry_setEntry_self _ _ _)

theorem rebuilt_tryOpen_false (env : Env) (ts : String) (sc0 : Scratch) (r rE : Report)
    (disk : Disk) (out : String)
    (hval : env.pydocx = false ∨ env.validate (FileData.zipOf (finalScratch env ts sc0)) = false) :
    (tryOpenWithPythonDocx env
      (setEntry disk out (FileData.zipOf (stagesScratch env ts sc0 r).1)) out rE).1 = false := by
  rw [tryOpen_rebuilt_fst, stagesScratch_fst]
  rcases hval with h | h
  · rw [h, Bool.false_and]
  · rw [h, Bool.and_false]

theorem validateAndFallback_disk_unavailable (env : Env) (sc3 : Scratch) (out : String)
    (disk2 : Disk) (rE : Report)
    (hok : (tryOpenWithPythonDocx env disk2 out rE).1 = false)
    (htool : env.pypandoc = false ∨ env.pandocVer = false) :
    (validateAndFallback env sc3 out disk2 rE).2.1 = disk2 := by
  rw [validateAndFallback_disk_fb env sc3 out disk2 rE hok]
  exact (pandocRoundtrip_unavailable env htool _ _ _ _).2

theorem finalScratch_core_none (env : Env) (ts : String) (sc0 : Scratch)
    (hcore : getEntry sc0 corePath = none) :
    getEntry (finalScratch env ts sc0) corePath = none := by
  unfold finalScratch stagesScratch
  dsimp only
  rw [getEntry_removeCustomXml _ _ _ (by decide) (by decide)]
  rw [sanitizeXmlFiles_frame env sanitizeTargets _ _ corePath (by decide)]
  unfold fixCoreProperties
  rw [hcore]
  exact hcore

/-- C3: the report's `final_docx_ok` field equals exactly the python-docx
validation result on the package rebuilt before any fallback is attempted:
it is independent of the conversion outcome, so it stays `false` even when
the pandoc fallback succeeds and replaces the output file. -/
theorem c3_final_docx_ok (env : Env) (ts : String) (disk0 : Disk) (inputPath : String)
    (outputPath : Option String) (idata : FileData) (sc0 : Scratch)
    (h1 : getEntry disk0 inputPath = some idata)
    (h2 : env.extract idata = some sc0)
    (h3 : env.rezipOk = true) :
    (repairDocx env ts disk0 inputPath outputPath).report.final_docx_ok =
      some (env.pydocx && env.validate (FileData.zipOf (finalScratch env ts sc0))) := by
  rw [repairDocx_run env ts disk0 inputPath outputPath idata sc0 h1 h2,
    afterExtract_rezip env ts _ inputPath outputPath sc0 _ h3]
  dsimp only
  rw [saveAndCleanup_final_ok, validateAndFallback_fst, tryOpen_rebuilt_fst, stagesScratch_fst]

/-- Witness for C3 at a concrete successful run. -/
theorem c3_final_docx_ok_witness :
    (repairDocx baseEnv "TS" inDisk "in.docx" none).report.final_docx_ok = some true := by
  have h := c3_final_docx_ok baseEnv "TS" inDisk "in.docx" none (FileData.zipOf docScratch)
    docScratch rfl rfl rfl
  rw [h]
  rfl

/-- C4: when validation fails and the conversion tool is unavailable
(pypandoc missing or the version check raising), the fallback returns
failure without attempting conversion or touching the disk, and the file
at the final output path is byte-for-byte the package rebuilt before the
fallback. -/
theorem c4_tool_unavailable (env : Env) (ts : String) (disk0 : Disk) (inputPath : String)
    (outputPath : Option String) (idata : FileData) (sc0 : Scratch)
    (h1 : getEntry disk0 inputPath = some idata)
    (h2 : env.extract idata = some sc0)
    (h3 : env.rezipOk = true)
    (hval : env.pydocx = false ∨ env.validate (FileData.zipOf (finalScratch env ts sc0)) = false)
    (htool : env.pypandoc = false ∨ env.pandocVer = false) :
    getEntry (repairDocx env ts disk0 inputPath outputPath).disk
      (outPathOf inputPath outputPath) = some (FileData.zipOf (finalScratch env ts sc0)) ∧
    (∀ (sc : Scratch) (out : String) (d : Disk) (r : Report),
      (pandocRoundtrip env sc out d r).1 = false ∧ (pandocRoundtrip env sc out d r).2.1 = d) := by
  constructor
  · rw [repairDocx_run env ts disk0 inputPath outputPath idata sc0 h1 h2,
      afterExtract_rezip env ts _ inputPath outputPath sc0 _ h3]
    dsimp only
    rw [saveAndCleanup_disk,
      validateAndFallback_disk_unavailable env _ _ _ _
        (rebuilt_tryOpen_false env ts sc0 _ _ _ _ hval) htool,
      getEntry_setEntry_self, stagesScratch_fst]
  · exact fun sc out d r => pandocRoundtrip_unavailable env htool sc out d r

/-- Witness for C4 at a concrete run with failing validation and missing
pypandoc. -/
theorem c4_tool_unavailable_witness :
    getEntry (repairDocx invalidEnv "TS" inDisk "in.docx" none).disk
      (outPathOf "in.docx" none) =
      some (FileData.zipOf (finalScratch invalidEnv "TS" docScratch)) ∧
    (pandocRoundtrip invalidEnv docScratch "o.docx" [] (Report.init "x")).1 = false ∧
    (pandocRoundtrip invalidEnv docScratch "o.docx" [] (Report.init "x")).2.1 = [] := by
  have h := c4_tool_unavailable invalidEnv "TS" inDisk "in.docx" none
    (FileData.zipOf docScratch) docScratch rfl rfl rfl (Or.inr rfl) (Or.inl rfl)
  exact ⟨h.1, (h.2 docScratch "o.docx" [] (Report.init "x")).1,
    (h.2 docScratch "o.docx" [] (Report.init "x")).2⟩

/-- C10: when the fallback's second conversion succeeds, the intermediate
rebuilt package `<output stem>.pandoc_rebuilt.docx` is written next to the
output path and is not removed by the fallback's cleanup — only the
throwaway rezipped package and the markdown file are unlinked — so it
remains on disk after the run. -/
theorem c10_pandoc_rebuilt_persists (env : Env) (ts : String) (disk0 : Disk)
    (inputPath : String) (outputPath : Option String) (idata m d : FileData) (sc0 : Scratch)
    (h1 : getEntry disk0 inputPath = some idata)
    (h2 : env.extract idata = some sc0)
    (h3 : env.rezipOk = true)
    (hval : env.pydocx = false ∨ env.validate (FileData.zipOf (finalScratch env ts sc0)) = false)
    (hpy : env.pypandoc = true) (hver : env.pandocVer = true)
    (hmd : env.convMd (FileData.zipOf (finalScratch env ts sc0)) = some m)
    (hdx : env.convDocx m = some (some d)) :
    getEntry (repairDocx env ts disk0 inputPath outputPath).disk
      (stemOf (outPathOf inputPath outputPath) ++ ".pandoc_rebuilt.docx") = some d ∧
    getEntry (repairDocx env ts disk0 inputPath outputPath).disk
      (stemOf (outPathOf inputPath outputPath) ++ ".pandoc_temp.docx") = none ∧
    getEntry (repairDocx env ts disk0 inputPath outputPath).disk
      (stemOf (outPathOf inputPath outputPath) ++ ".pandoc_temp.md") = none := by
  rw [repairDocx_run env ts disk0 inputPath outputPath idata sc0 h1 h2,
    afterExtract_rezip env ts _ inputPath outputPath sc0 _ h3]
  dsimp only
  rw [saveAndCleanup_disk,
    validateAndFallback_disk_fb env _ _ _ _ (rebuilt_tryOpen_false env ts sc0 _ _ _ _ hval),
    stagesScratch_fst]
  refine ⟨?_, ?_, ?_⟩
  · exact (pandocRoundtrip_success env _ _ _ _ m d hpy hver hmd hdx).2.1
  · exact (pandocRoundtrip_success env _ _ _ _ m d hpy hver hmd hdx).2.2.1
  · exact (pandocRoundtrip_success env _ _ _ _ m d hpy hver hmd hdx).2.2.2

/-- Witness for C10 at a concrete run with working pandoc. -/
theorem c10_pandoc_rebuilt_persists_witness :
    getEntry (repairDocx pandocEnv "TS" inDisk "in.docx" none).disk
      (stemOf (outPathOf "in.docx" none) ++ ".pandoc_rebuilt.docx") =
      some (FileData.bytes "rebuilt") ∧
    getEntry (repairDocx pandocEnv "TS" inDisk "in.docx" none).disk
      (stemOf (outPathOf "in.docx" none) ++ ".pandoc_temp.docx") = none ∧
    getEntry (repairDocx pandocEnv "TS" inDisk "in.docx" none).disk
      (stemOf (outPathOf "in.docx" none) ++ ".pandoc_temp.md") = none :=
  c10_pandoc_rebuilt_persists pandocEnv "TS" inDisk "in.docx" none
    (FileData.zipOf docScratch) (FileData.bytes "md") (FileData.bytes "rebuilt") docScratch
    rfl rfl rfl (Or.inr rfl) rfl rfl rfl rfl

/-- C5 amended: after a successful extraction, in-stage failures do not
abort — when the rebuild write succeeds, validation is attempted, a failed
validation (`final_docx_ok = some false`) leads to the fallback attempt,
and the report is persisted; but when the rebuild write raises, the error
is recorded and the run ends early: no validation attempt is recorded, no
report is persisted. -/
theorem c5_stage_failures (env : Env) (ts : String) (disk0 : Disk) (inputPath : String)
    (outputPath : Option String) (idata : FileData) (sc0 : Scratch)
    (h1 : getEntry disk0 inputPath = some idata)
    (h2 : env.extract idata = some sc0) :
    (env.rezipOk = true →
      "Attempting to validate repaired docx with python-docx."
        ∈ (repairDocx env ts disk0 inputPath outputPath).report.actions ∧
      (repairDocx env ts disk0 inputPath outputPath).saved.length = 1 ∧
      ((repairDocx env ts disk0 inputPath outputPath).report.final_docx_ok = some false →
        "python-docx validation failed - attempting pandoc roundtrip fallback."
          ∈ (repairDocx env ts disk0 inputPath outputPath).report.actions)) ∧
    (env.rezipOk = false →
      "Unexpected error during repair"
        ∈ (repairDocx env ts disk0 inputPath outputPath).report.errors ∧
      (repairDocx env ts disk0 inputPath outputPath).saved = [] ∧
      (repairDocx env ts disk0 inputPath outputPath).report.final_docx_ok = none) := by
  rw [repairDocx_run env ts disk0 inputPath outputPath idata sc0 h1 h2]
  constructor
  · intro h3
    rw [afterExtract_rezip env ts _ inputPath outputPath sc0 _ h3]
    dsimp only
    refine ⟨?_, ?_, ?_⟩
    · apply mem_actions_of_reportExtends (saveAndCleanup_report_extends _ _ _ _ _ _)
      rw [setFinalOk_actions, setFinal_actions]
      apply mem_actions_of_reportExtends (validateAndFallback_extends _ _ _ _ _)
      rw [addAction_actions]
      exact List.mem_append_right _ (List.mem_singleton.mpr rfl)
    · rw [saveAndCleanup_saved]
      rfl
    · intro hfo
      rw [saveAndCleanup_final_ok] at hfo
      have hv1 := Option.some.inj hfo
      rw [validateAndFallback_fst] at hv1
      apply mem_actions_of_reportExtends (saveAndCleanup_report_extends _ _ _ _ _ _)
      rw [setFinalOk_actions, setFinal_actions]
      exact validateAndFallback_marker _ _ _ _ _ hv1
  · intro h3
    rw [afterExtract_norezip env ts _ inputPath outputPath sc0 _ h3]
    dsimp only
    refine ⟨?_, rfl, ?_⟩
    · rw [addError_errors]
      exact List.mem_append_right _ (List.mem_singleton.mpr rfl)
    · rw [addError_final_ok, stagesScratch_final_ok]
      rfl

/-- Witness for C5 (amended) at a concrete run whose rebuild succeeds. -/
theorem c5_stage_failures_witness :
    "Attempting to validate repaired docx with python-docx."
      ∈ (repairDocx baseEnv "TS" inDisk "in.docx" none).report.actions ∧
    (repairDocx baseEnv "TS" inDisk "in.docx" none).saved.length = 1 := by
  have h := (c5_stage_failures baseEnv "TS" inDisk "in.docx" none
    (FileData.zipOf docScratch) docScratch rfl rfl).1 rfl
  exact ⟨h.1, h.2.1⟩

/-- C5 counterexample: a run whose rebuild write raises records the failure
as an error, yet validation is never attempted and no report is saved —
refuting "every subsequent stage is still attempted". -/
theorem c5_counterexample :
    "Unexpected error during repair"
      ∈ (repairDocx noRezipEnv "TS" inDisk "in.docx" none).report.errors ∧
    "Attempting to validate repaired docx with python-docx."
      ∉ (repairDocx noRezipEnv "TS" inDisk "in.docx" none).report.actions ∧
    (repairDocx noRezipEnv "TS" inDisk "in.docx" none).saved = [] := by decide

/-- C6 amended: for an input that exists but cannot be opened as a zip,
the report contains exactly two error entries — the failed-unzip error and
the outer handler's unexpected-error entry — and the backup has been
written before the extraction attempt, so it exists on this failure. -/
theorem c6_unzip_two_errors (env : Env) (ts : String) (disk0 : Disk) (inputPath : String)
    (outputPath : Option String) (idata : FileData)
    (h1 : getEntry disk0 inputPath = some idata)
    (h2 : env.extract idata = none) :
    (repairDocx env ts disk0 inputPath outputPath).report.errors =
      ["Failed to unzip " ++ inputPath, "Unexpected error during repair"] ∧
    getEntry (repairDocx env ts disk0 inputPath outputPath).disk
      (backupPathOf inputPath ts) = some idata ∧
    (repairDocx env ts disk0 inputPath outputPath).report.backup_path =
      some (backupPathOf inputPath ts) := by
  rw [repairDocx_unzipFail env ts disk0 inputPath outputPath idata h1 h2]
  exact ⟨by simp, getEntry_setEntry_self _ _ _, by simp⟩

/-- Witness for C6 (amended) at a concrete non-zip input. -/
theorem c6_unzip_two_errors_witness :
    (repairDocx badZipEnv "TS" badDisk "bad.docx" none).report.errors =
      ["Failed to unzip bad.docx", "Unexpected error during repair"] ∧
    getEntry (repairDocx badZipEnv "TS" badDisk "bad.docx" none).disk
      (backupPathOf "bad.docx" "TS") = some (FileData.bytes "junk") ∧
    (repairDocx badZipEnv "TS" badDisk "bad.docx" none).report.backup_path =
      some (backupPathOf "bad.docx" "TS") :=
  c6_unzip_two_errors badZipEnv "TS" badDisk "bad.docx" none (FileData.bytes "junk") rfl rfl

/-- C6 counterexample: on a non-zip input the report carries two error
entries, not exactly one. -/
theorem c6_counterexample :
    (repairDocx badZipEnv "TS" badDisk "bad.docx" none).report.errors =
      ["Failed to unzip bad.docx", "Unexpected error during repair"] ∧
    ¬ (repairDocx badZipEnv "TS" badDisk "bad.docx" none).report.errors.length = 1 := by decide

/-- C9 amended: the report is persisted at most once per run; a run that
reaches the save point (successful extraction and rebuild) persists exactly
one snapshot and only appends to the in-memory report afterwards, while a
run that fails at extraction persists nothing. -/
theorem c9_report_persistence (env : Env) (ts : String) (disk0 : Disk) (inputPath : String)
    (outputPath : Option String) :
    (repairDocx env ts disk0 inputPath outputPath).saved.length ≤ 1 ∧
    (∀ (idata : FileData) (sc0 : Scratch), getEntry disk0 inputPath = some idata →
      env.extract idata = some sc0 → env.rezipOk = true →
      ∃ s, (repairDocx env ts disk0 inputPath outputPath).saved = [s] ∧
        ReportExtends (repairDocx env ts disk0 inputPath outputPath).report s) ∧
    (∀ idata : FileData, getEntry disk0 inputPath = some idata → env.extract idata = none →
      (repairDocx env ts disk0 inputPath outputPath).saved = []) := by
  refine ⟨?_, ?_, ?_⟩
  · cases hI : getEntry disk0 inputPath with
    | none =>
      rw [repairDocx_noinput env ts disk0 inputPath outputPath hI]
      exact Nat.zero_le 1
    | some idata =>
      cases hE : env.extract idata with
      | none =>
        rw [repairDocx_unzipFail env ts disk0 inputPath outputPath idata hI hE]
        exact Nat.zero_le 1
      | some sc0 =>
        rw [repairDocx_run env ts disk0 inputPath outputPath idata sc0 hI hE]
        by_cases h3 : env.rezipOk
        · rw [afterExtract_rezip env ts _ inputPath outputPath sc0 _ h3]
          dsimp only
          rw [saveAndCleanup_saved]
          exact Nat.le_refl 1
        · have h3f : env.rezipOk = false := by
            cases hb : env.rezipOk
            · rfl
            · exact absurd hb h3
          rw [afterExtract_norezip env ts _ inputPath outputPath sc0 _ h3f]
          exact Nat.zero_le 1
  · intro idata sc0 hI hE h3
    rw [repairDocx_run env ts disk0 inputPath outputPath idata sc0 hI hE,
      afterExtract_rezip env ts _ inputPath outputPath sc0 _ h3]
    dsimp only
    exact ⟨_, saveAndCleanup_saved _ _ _ _ _ _, saveAndCleanup_report_extends _ _ _ _ _ _⟩
  · intro idata hI hE
    rw [repairDocx_unzipFail env ts disk0 inputPath outputPath idata hI hE]

/-- Witness for C9 (amended) at a concrete successful run. -/
theorem c9_report_persistence_witness :
    (repairDocx baseEnv "TS" inDisk "in.docx" none).saved.length = 1 := by
  obtain ⟨s, hs, _⟩ := (c9_report_persistence baseEnv "TS" inDisk "in.docx" none).2.1
    (FileData.zipOf docScratch) docScratch rfl rfl rfl
  rw [hs]
  rfl

/-- C9 counterexample: a run failing at extraction records errors but
persists no report at all — refuting "every run persists the report". -/
theorem c9_counterexample :
    (repairDocx badZipEnv "TS" badDisk "bad.docx" none).saved = [] ∧
    ¬ (repairDocx badZipEnv "TS" badDisk "bad.docx" none).report.errors = [] := by decide

theorem rebuilt_tryOpen_true (env : Env) (ts : String) (sc0 : Scratch) (r rE : Report)
    (disk : Disk) (out : String)
    (hpd : env.pydocx = true)
    (hv : env.validate (FileData.zipOf (finalScratch env ts sc0)) = true) :
    (tryOpenWithPythonDocx env
      (setEntry disk out (FileData.zipOf (stagesScratch env ts sc0 r).1)) out rE).1 = true := by
  rw [tryOpen_rebuilt_fst, stagesScratch_fst, hpd, hv]
  rfl

/-- C1 amended: for a package whose core-properties part is absent, the
metadata stage is a logged no-op, so the rebuilt output package contains no
metadata part at all (stated for a run whose validation succeeds, so the
rebuilt package is the final output untouched by the fallback). -/
theorem c1_missing_core_noop (env : Env) (ts : String) (disk0 : Disk) (inputPath : String)
    (outputPath : Option String) (idata : FileData) (sc0 : Scratch)
    (h1 : getEntry disk0 inputPath = some idata)
    (h2 : env.extract idata = some sc0)
    (h3 : env.rezipOk = true)
    (hcore : getEntry sc0 corePath = none)
    (hpd : env.pydocx = true)
    (hv : env.validate (FileData.zipOf (finalScratch env ts sc0)) = true) :
    coreInOutput (repairDocx env ts disk0 inputPath outputPath).disk
      (outPathOf inputPath outputPath) = some none ∧
    "No core.xml found - nothing to fix for metadata."
      ∈ (repairDocx env ts disk0 inputPath outputPath).report.actions := by
  rw [repairDocx_run env ts disk0 inputPath outputPath idata sc0 h1 h2,
    afterExtract_rezip env ts _ inputPath outputPath sc0 _ h3]
  dsimp only
  constructor
  · rw [saveAndCleanup_disk,
      validateAndFallback_validated env _ _ _ _
        (rebuilt_tryOpen_true env ts sc0 _ _ _ _ hpd hv)]
    unfold coreInOutput
    rw [getEntry_setEntry_self]
    dsimp only
    rw [stagesScratch_fst, finalScratch_core_none env ts sc0 hcore]
  · apply mem_actions_of_reportExtends (saveAndCleanup_report_extends _ _ _ _ _ _)
    rw [setFinalOk_actions, setFinal_actions]
    apply mem_actions_of_reportExtends (validateAndFallback_extends _ _ _ _ _)
    rw [addAction_actions, addAction_actions]
    apply List.mem_append_left
    apply List.mem_append_left
    have hx : ReportExtends (stagesScratch env ts sc0 (postExtractReport inputPath ts)).2
        (fixCoreProperties env ts sc0 (postExtractReport inputPath ts)).2 := by
      unfold stagesScratch
      dsimp only
      exact reportExtends_trans (sanitizeXmlFiles_extends env sanitizeTargets _ _)
        (removeCustomXml_extends _ _)
    apply mem_actions_of_reportExtends hx
    unfold fixCoreProperties
    rw [hcore]
    dsimp only
    rw [addAction_actions]
    exact List.mem_append_right _ (List.mem_singleton.mpr rfl)

/-- Witness for C1 (amended) at a concrete core-less input. -/
theorem c1_missing_core_noop_witness :
    coreInOutput (repairDocx baseEnv "TS" inDisk "in.docx" none).disk
      (outPathOf "in.docx" none) = some none ∧
    "No core.xml found - nothing to fix for metadata."
      ∈ (repairDocx baseEnv "TS" inDisk "in.docx" none).report.actions :=
  c1_missing_core_noop baseEnv "TS" inDisk "in.docx" none (FileData.zipOf docScratch)
    docScratch rfl rfl rfl rfl rfl rfl

/-- C1 counterexample: a core-less input yields a validated final output
whose zip contains no core-properties part at all, refuting "the repaired
package contains a synthesized metadata part with non-empty title and
creator". -/
theorem c1_counterexample :
    coreInOutput (repairDocx baseEnv "TS" inDisk "in.docx" none).disk
      (outPathOf "in.docx" none) = some none ∧
    (repairDocx baseEnv "TS" inDisk "in.docx" none).report.final_docx_ok = some true := by
  decide

/-- C2 amended: on a parsable core part the repairer re-parses the pretty
print, prepends the default title when the title is missing or blank, but
prepends the default creator only when the creator element is missing — an
empty-but-present creator is left as is — then re-serializes and overwrites
the part, leaving all other elements unchanged as a suffix in order. -/
theorem c2_metadata_fix (env : Env) (ts c : String) (sc : Scratch) (r : Report)
    (t t2 : XDoc)
    (hl : env.lxml = true)
    (hc : getEntry sc corePath = some c)
    (hp : env.parse c = some t)
    (hp2 : env.parse (env.render t) = some t2) :
    (fixCoreProperties env ts sc r).1 =
      setEntry sc corePath (env.render (ensureBasicTags t2).1) ∧
    (ensureBasicTags t2).1.children =
      (if (findTag t2 creatorTag).isNone then [XElem.mk creatorTag (some "AutoRepair")] else []) ++
      (if needsTitle (findTag t2 titleTag) then [XElem.mk titleTag (some "Repaired Document")] else []) ++
      t2.children := by
  constructor
  · unfold fixCoreProperties
    rw [hc]
    dsimp only
    rw [safeParseXml_fst]
    have hpp : parsePretty env c = some (env.render t) := by
      unfold parsePretty
      rw [if_pos hl, hp]
      rfl
    rw [hpp]
    dsimp only
    rw [hp2]
  · unfold ensureBasicTags
    dsimp only
    by_cases hcr : (findTag t2 creatorTag).isNone <;>
      by_cases hti : needsTitle (findTag t2 titleTag) <;>
        simp [hcr, hti]

/-- Witness for C2 (amended) at a core part parsing to the empty tree. -/
theorem c2_metadata_fix_witness :
    (fixCoreProperties bareCoreEnv "TS" coreScratch (Report.init "i")).1 =
      setEntry coreScratch corePath (bareCoreEnv.render (ensureBasicTags (XDoc.mk [])).1) ∧
    (ensureBasicTags (XDoc.mk [])).1.children =
      (if (findTag (XDoc.mk []) creatorTag).isNone then
        [XElem.mk creatorTag (some "AutoRepair")] else []) ++
      (if needsTitle (findTag (XDoc.mk []) titleTag) then
        [XElem.mk titleTag (some "Repaired Document")] else []) ++
      (XDoc.mk []).children :=
  c2_metadata_fix bareCoreEnv "TS" "core" coreScratch (Report.init "i")
    (XDoc.mk []) (XDoc.mk []) rfl rfl rfl rfl

/-- C2 counterexample: a core part whose creator element is present but
empty gets no default creator — the tree is returned unchanged and only the
final rewrite action is logged — refuting "empty-but-present treated the
same as absent for both fields". -/
theorem c2_counterexample :
    findTag emptyCreatorTree creatorTag = some (XElem.mk creatorTag (some "")) ∧
    ensureBasicTags emptyCreatorTree = (emptyCreatorTree, []) ∧
    (fixCoreProperties emptyCreatorEnv "TS" coreScratch (Report.init "i")).2.actions =
      ["Rewrote core.xml with ensured basic metadata"] := by
  decide

/-- C7: under the canonical-reparse property of the external recovering
parser at the parsed tree (spec: it can "re-serialize canonically"),
sanitizing a part that parses successfully is idempotent on the part
content, and the sanitized content re-parses as well-formed XML. -/
theorem c7_sanitize_idempotent (env : Env) (c : String) (r r' : Report) (t : XDoc)
    (hl : env.lxml = true)
    (hp : env.parse c = some t)
    (hcanon : env.parse (env.render t) = some t) :
    (safeParseXml env c r).1 = some (env.render t) ∧
    (safeParseXml env (env.render t) r').1 = some (env.render t) ∧
    (env.parse (env.render t)).isSome = true := by
  refine ⟨?_, ?_, ?_⟩
  · rw [safeParseXml_fst]
    unfold parsePretty
    rw [if_pos hl, hp]
    rfl
  · rw [safeParseXml_fst]
    unfold parsePretty
    rw [if_pos hl, hcanon]
    rfl
  · rw [hcanon]
    rfl

/-- Witness for C7 at a concrete canonical parser. -/
theorem c7_sanitize_idempotent_witness :
    (safeParseXml bareCoreEnv "core" (Report.init "i")).1 =
      some (bareCoreEnv.render (XDoc.mk [])) ∧
    (safeParseXml bareCoreEnv (bareCoreEnv.render (XDoc.mk [])) (Report.init "i")).1 =
      some (bareCoreEnv.render (XDoc.mk [])) ∧
    (bareCoreEnv.parse (bareCoreEnv.render (XDoc.mk []))).isSome = true :=
  c7_sanitize_idempotent bareCoreEnv "core" (Report.init "i") (Report.init "i")
    (XDoc.mk []) rfl rfl rfl

/-- C8: the sanitize stage writes only the three allow-listed parts — every
other scratch entry is read or written never, hence unchanged — and an
allow-listed part whose parse fails is itself left byte-for-byte
untouched. -/
theorem c8_sanitize_frame_props (env : Env) (sc : Scratch) (r : Report) (p : String) :
    (p ∉ sanitizeTargets →
      getEntry (sanitizeXmlFiles env sc r sanitizeTargets).1 p = getEntry sc p) ∧
    (∀ c : String, getEntry sc p = some c → parsePretty env c = none →
      getEntry (sanitizeXmlFiles env sc r sanitizeTargets).1 p = some c) := by
  constructor
  · exact fun h => sanitizeXmlFiles_frame env sanitizeTargets sc r p h
  · exact fun c hc hf => sanitizeXmlFiles_untouched env sanitizeTargets sc r p c hc hf

/-- Witness for C8: a media file is untouched, and an unparsable document
part keeps its bytes. -/
theorem c8_sanitize_frame_props_witness :
    getEntry (sanitizeXmlFiles baseEnv sanScratch (Report.init "i") sanitizeTargets).1
      "word/media/img.png" = some "IMG" ∧
    getEntry (sanitizeXmlFiles baseEnv sanScratch (Report.init "i") sanitizeTargets).1
      "word/document.xml" = some "notxml" := by
  have h1 := (c8_sanitize_frame_props baseEnv sanScratch (Report.init "i")
    "word/media/img.png").1 (by decide)
  have h2 := (c8_sanitize_frame_props baseEnv sanScratch (Report.init "i")
    "word/document.xml").2 "notxml" rfl rfl
  exact ⟨h1.trans rfl, h2⟩

end DocxRepair
